import Mathlib

/-!
Verification development for the Transit Network Analysis Tools repository.

The two source files embedded here are
`CalculateAccessibility.py` (the Calculate Accessibility Matrix tool, `runTool`)
and `ToolValidator.py` (the shared interactive parameter-validation routines).

Conventions of the embedding:
* Python `dict`s keyed by ObjectIDs become association lists (`KVList`);
  lookup returns the first (unique, for real dicts) entry for a key.
* Machine floats used by the source for the statistics arithmetic become `Rat`;
  all the arithmetic the claims touch is exact on the values involved.
* The external OD Cost Matrix solver is a boundary interface: each scheduled
  departure instant yields a `SolveOutcome`, either the list of reachable
  (OriginID, DestinationID) pairs read from the Lines sublayer, or a failure
  carrying the diagnostic text of `arcpy.GetMessages(2)`.
* Host message-stream calls are recorded as `ToolMessage` values whose
  severity mirrors the arcpy call used (`AddMessage` = info,
  `AddWarning` = warning, `AddError` = fatal).
-/

/-- Association list with natural-number keys: the embedding of a Python
`dict` keyed by ObjectIDs. -/
abbrev KVList (α : Type) := List (Nat × α)

/-- Dictionary lookup: first entry whose key matches. -/
def alGet {α : Type} (l : KVList α) (k : Nat) : Option α :=
  match l with
  | [] => none
  | p :: rest => if p.1 = k then some p.2 else alGet rest k

/-- Dictionary write `l[k] = v`: replace in place, or append a new key
(Python dicts preserve insertion order and append new keys at the end). -/
def alSet {α : Type} (l : KVList α) (k : Nat) (v : α) : KVList α :=
  match l with
  | [] => [(k, v)]
  | p :: rest => if p.1 = k then (k, v) :: rest else p :: alSet rest k v

/-- Severity of a message sent to the host's message stream. -/
inductive MsgSeverity : Type
  | info
  | warning
  | fatal
deriving DecidableEq

/-- One message sent to the host's message stream. -/
structure ToolMessage where
  sev : MsgSeverity
  text : String
deriving DecidableEq

/-- Outcome of one `arcpy.na.Solve` call at one departure instant: either the
reachable (OriginID, DestinationID) pairs read from the Lines sublayer, or a
failure whose diagnostics are the text of `arcpy.GetMessages(2)`. -/
inductive SolveOutcome : Type
  | success (lines : List (Nat × Nat))
  | failure (errs : String)
deriving DecidableEq

/-- Python substring test `sub in s` on the character lists of the strings. -/
def containsSub (s sub : List Char) : Bool :=
  (List.range (s.length + 1)).any (fun i => (s.drop i).take sub.length == sub)

/-- The nested reachability counter `OD_count_dict`:
`{Origin OID: {Destination OID: Number of times reached}}`. -/
abbrev ODDict := KVList (KVList Nat)

/-- One Lines-sublayer row (lines 205-212 of `CalculateAccessibility.py`):
create the origin's inner dict if absent, then start the destination's
counter at 1 or increment it. -/
def addLine (dict : ODDict) (o d : Nat) : ODDict :=
  let inner := (alGet dict o).getD []
  let inner2 :=
    match alGet inner d with
    | none => alSet inner d 1
    | some c => alSet inner d (c + 1)
  alSet dict o inner2

/-- Messages emitted by the `try/except` around one solve (lines 192-201):
a failure whose diagnostics contain "No solution found" is silent, any other
failure is reported with `arcpy.AddMessage` (info severity); a successful
solve emits nothing from this block. -/
def solveStepMessages (oc : SolveOutcome) : List ToolMessage :=
  match oc with
  | SolveOutcome.success _ => []
  | SolveOutcome.failure errs =>
    if containsSub errs.data "No solution found".data then []
    else [⟨MsgSeverity.info, "Solve failed.  Errors: " ++ errs ++ ". Continuing to next time of day."⟩]

/-- Effect of one departure instant on the reachability counter: a failed
solve is skipped (`continue`) before any Lines row is read, a successful one
increments the counter once per Lines row. -/
def applyOutcome (dict : ODDict) (oc : SolveOutcome) : ODDict :=
  match oc with
  | SolveOutcome.failure _ => dict
  | SolveOutcome.success lines => lines.foldl (fun dd p => addLine dd p.1 p.2) dict

/-- The reachability counter after processing a list of per-instant solve
outcomes, starting from the empty dict initialized before the loop. -/
def runODDict (outcomes : List SolveOutcome) : ODDict :=
  outcomes.foldl applyOutcome []

/-- The solve loop of `runTool` (lines 183-212): iterate over `timelist`,
solve at each instant, and accumulate the reachability counter. -/
def solveLoop (timelist : List Nat) (solver : Nat → SolveOutcome) : ODDict :=
  timelist.foldl (fun dict t => applyOutcome dict (solver t)) []

/-- Reading of the nested counter used by the statistics phase:
`OD_count_dict[o][d]`, with 0 for a missing key. -/
def odGet (dict : ODDict) (o d : Nat) : Nat :=
  match alGet dict o with
  | none => 0
  | some inner => (alGet inner d).getD 0

/-- Number of occurrences of the pair `(o, d)` among the Lines rows of one
solve. -/
def linesCount (lines : List (Nat × Nat)) (o d : Nat) : Nat :=
  (lines.filter (fun p => p.1 = o ∧ p.2 = d)).length

/-- Total number of times `(o, d)` appears across the successful solves only:
what the reachability counter is meant to hold. -/
def successPairCount (outcomes : List SolveOutcome) (o d : Nat) : Nat :=
  (outcomes.map (fun oc =>
    match oc with
    | SolveOutcome.success lines => linesCount lines o d
    | SolveOutcome.failure _ => 0)).sum

/-- Line 255 of `CalculateAccessibility.py`:
`percent_of_times_reachable = (float(count) / float(len(timelist))) * 100`. -/
def percentOfTimesReachable (count numInstants : Nat) : Rat :=
  ((count : Rat) / (numInstants : Rat)) * 100

/-- A destination record: ObjectID plus the (optional) value of the weight
field; `none` embeds a SQL NULL. -/
structure Dest where
  oid : Nat
  weight : Option Rat
deriving DecidableEq

/-- The SQL filter `field IS NOT NULL AND field <> 0` applied to one
destination's weight value (line 150). -/
def destinationPassesFilter (w : Option Rat) : Bool :=
  match w with
  | none => false
  | some x => if x = 0 then false else true

/-- The filtered destinations layer made on line 151: destinations whose
weight is NULL or 0 are dropped before loading. -/
def filterDestinations (dests : List Dest) : List Dest :=
  dests.filter (fun d => destinationPassesFilter d.weight)

/-- Result of the destination-preparation step: either the fatal
all-rows-filtered error, or the loaded destination layer together with
`destination_weight_dict` and `num_dests`. -/
inductive SetupResult : Type
  | fatal (msg : String)
  | ok (layer : List Dest) (destination_weight_dict : KVList Rat) (num_dests : Rat)
deriving DecidableEq

/-- Destination preparation (lines 147-154 and 219-228 of
`CalculateAccessibility.py`): with a weight field, filter out NULL/zero
weights, abort with `arcpy.AddError` plus `CustomError` if nothing remains,
and otherwise build `destination_weight_dict` and sum the weights into
`num_dests`; without a weight field, `num_dests` is the number of loaded
destinations. -/
def prepareDestinations (destinations_weight_field : Option String) (dests : List Dest) :
    SetupResult :=
  match destinations_weight_field with
  | none => SetupResult.ok dests [] ((dests.length : Rat))
  | some fld =>
    let destinations_layer := filterDestinations dests
    if destinations_layer.length = 0 then
      SetupResult.fatal
        ("The weight field " ++ fld ++
          " of your input Destinations table has values of 0 or Null for all rows.")
    else
      SetupResult.ok destinations_layer
        (destinations_layer.map (fun d => (d.oid, d.weight.getD 0)))
        ((destinations_layer.map (fun d => d.weight.getD 0)).sum)

/-- Lines 256-261: the weight this destination contributes, looked up through
`destinations_oid_dict` (sublayer OID to input OID) and
`destination_weight_dict`; 1 when no weight dict is in use
(`if destination_weight_dict:`). -/
def destsToAdd (destinations_oid_dict : KVList Nat) (destination_weight_dict : KVList Rat)
    (destOid : Nat) : Rat :=
  if destination_weight_dict.isEmpty then 1
  else (alGet destination_weight_dict ((alGet destinations_oid_dict destOid).getD 0)).getD 0

/-- `range(10, 100, 10)`: the nine percentage thresholds. -/
def thresholdList : List Nat := [10, 20, 30, 40, 50, 60, 70, 80, 90]

/-- `reachable_dests_perc = {i: 0 for i in range(10, 100, 10)}` (line 249). -/
def initBuckets : KVList Rat := thresholdList.map (fun i => (i, (0 : Rat)))

/-- Lines 265-268: add `amt` to every threshold bucket whose threshold the
percent of times reachable meets (`percent_of_times_reachable >= perc`). -/
def bumpBuckets (buckets : KVList Rat) (percent amt : Rat) : KVList Rat :=
  buckets.map (fun b => if (b.1 : Rat) ≤ percent then (b.1, b.2 + amt) else b)

/-- One iteration of the per-destination loop (lines 252-268): skip counters
that are not positive, otherwise accumulate the destination's weight into the
running total and into every qualifying threshold bucket. -/
def statStep (destinations_oid_dict : KVList Nat) (destination_weight_dict : KVList Rat)
    (numInstants : Nat) (acc : Rat × KVList Rat) (dc : Nat × Nat) : Rat × KVList Rat :=
  if 0 < dc.2 then
    let percent := percentOfTimesReachable dc.2 numInstants
    let amt := destsToAdd destinations_oid_dict destination_weight_dict dc.1
    (acc.1 + amt, bumpBuckets acc.2 percent amt)
  else acc

/-- The twenty statistics written back onto one origin record
(`TotalDests`, `PercDests`, and the nine `DsAL{t}Perc` / `PsAL{t}Perc`
pairs, keyed by threshold). -/
structure OriginStats where
  totalDests : Rat
  percDests : Rat
  dsALPerc : KVList Rat
  psALPerc : KVList Rat
deriving DecidableEq

/-- Statistics phase for one origin (lines 243-278 of
`CalculateAccessibility.py`): look the origin's solver OID up in the
reachability counter (absent means nothing was ever reachable and the loop
body is skipped), fold the per-destination loop, then derive the percentage
fields by dividing by `num_dests` and multiplying by 100. -/
def computeOriginStats (OD_count_dict : ODDict) (destinations_oid_dict : KVList Nat)
    (destination_weight_dict : KVList Rat) (num_dests : Rat) (numInstants : Nat)
    (origin_OID : Nat) : OriginStats :=
  let dests := (alGet OD_count_dict origin_OID).getD []
  let folded := dests.foldl
    (statStep destinations_oid_dict destination_weight_dict numInstants) (0, initBuckets)
  { totalDests := folded.1
    percDests := folded.1 / num_dests * 100
    dsALPerc := folded.2
    psALPerc := folded.2.map (fun b => (b.1, b.2 / num_dests * 100)) }

/-- End-to-end reachability statistics of one run for one origin: the counter
is built by the solve loop over `timelist`, and the percentage denominator is
`len(timelist)` - the full scheduled instant list built before the loop. -/
def runReachabilityStats (timelist : List Nat) (solver : Nat → SolveOutcome)
    (destinations_oid_dict : KVList Nat) (destination_weight_dict : KVList Rat)
    (num_dests : Rat) (origin_OID : Nat) : OriginStats :=
  computeOriginStats (solveLoop timelist solver) destinations_oid_dict
    destination_weight_dict num_dests timelist.length origin_OID

/-- Weighted total of the destinations a given inner counter list ever
reached (closed form of the running total of the per-destination fold). -/
def reachedTotal (dests : List (Nat × Nat)) (destinations_oid_dict : KVList Nat)
    (destination_weight_dict : KVList Rat) : Rat :=
  (dests.map (fun dc =>
    if 0 < dc.2 then destsToAdd destinations_oid_dict destination_weight_dict dc.1 else 0)).sum

/-- Weighted total of the destinations reached at least `t` percent of the
instants (closed form of one threshold bucket). -/
def bucketTotal (dests : List (Nat × Nat)) (destinations_oid_dict : KVList Nat)
    (destination_weight_dict : KVList Rat) (numInstants t : Nat) : Rat :=
  (dests.map (fun dc =>
    if 0 < dc.2 ∧ (t : Rat) ≤ percentOfTimesReachable dc.2 numInstants then
      destsToAdd destinations_oid_dict destination_weight_dict dc.1
    else 0)).sum

/-!
Embedding of `ToolValidator.py`: the host UI's mutable parameter objects and
the validation callbacks the claims are about. `setWarningMessage` replaces
the parameter's current message with a warning (this is how the source's
comment describes the only working way to downgrade a UI error);
`clearMessage` is a documented no-op in the host ("does not work in python
toolboxes because of an ArcGIS bug") and is therefore not modelled as a
state change.
-/

/-- A host-UI parameter object: current value, the `altered` and
`hasBeenValidated` flags, enabled/disabled state, and the error/warning
message slots the validators mutate. -/
structure Parameter where
  value : Option String
  altered : Bool
  hasBeenValidated : Bool
  enabled : Bool
  errorMessage : Option String
  warningMessage : Option String
deriving DecidableEq

/-- `param.valueAsText`, with the empty string for an unset value (both are
falsy in the source's truthiness tests). -/
def valueAsText (p : Parameter) : String :=
  p.value.getD ""

/-- `param.setErrorMessage(msg)`. -/
def setErrorMessage (p : Parameter) (msg : String) : Parameter :=
  { p with errorMessage := some msg }

/-- `param.setWarningMessage(msg)`: the message becomes a warning, which
clears the error state (the tool is then allowed to run). -/
def setWarningMessage (p : Parameter) (msg : String) : Parameter :=
  { p with errorMessage := none, warningMessage := some msg }

/-- `param.hasError()`. -/
def hasErrorB (p : Parameter) : Bool :=
  p.errorMessage.isSome

/-- `param.message`: the text of the current validation message. -/
def message (p : Parameter) : String :=
  p.errorMessage.getD ""

/-- `days`: the seven weekday names (module constant of `ToolValidator.py`). -/
def days : List String :=
  ["Monday", "Tuesday", "Wednesday", "Thursday", "Friday", "Saturday", "Sunday"]

/-- Numeric value of a decimal digit character. -/
def dv (c : Char) : Nat :=
  c.toNat - '0'.toNat

/-- Gregorian leap-year test, as in Python's `datetime`. -/
def isLeap (y : Nat) : Bool :=
  (y % 4 = 0 && y % 100 != 0) || y % 400 = 0

/-- Days in a month, as in Python's `datetime`. -/
def daysInMonth (y m : Nat) : Nat :=
  if m = 2 then (if isLeap y then 29 else 28)
  else if m = 4 ∨ m = 6 ∨ m = 9 ∨ m = 11 then 30
  else 31

/-- First step of CPython's regex for `%Y`: exactly four digit characters. -/
def parseYear4 (s : List Char) : Option (Nat × List Char) :=
  match s with
  | y1 :: y2 :: y3 :: y4 :: rest =>
    if y1.isDigit && y2.isDigit && y3.isDigit && y4.isDigit then
      some (1000 * dv y1 + 100 * dv y2 + 10 * dv y3 + dv y4, rest)
    else none
  | _ => none

/-- The alternatives of CPython's regex for `%m`, `1[0-2]|0[1-9]|[1-9]`:
every (month value, remaining input) pair some alternative can produce. -/
def monthAlts (s : List Char) : List (Nat × List Char) :=
  match s with
  | [] => []
  | [c] => if '1' ≤ c && c ≤ '9' then [(dv c, [])] else []
  | c1 :: c2 :: rest =>
    (if c1 = '1' && '0' ≤ c2 && c2 ≤ '2' then [(10 + dv c2, rest)]
     else if c1 = '0' && '1' ≤ c2 && c2 ≤ '9' then [(dv c2, rest)]
     else [])
    ++ (if '1' ≤ c1 && c1 ≤ '9' then [(dv c1, c2 :: rest)] else [])

/-- The alternatives of CPython's regex for `%d`,
`3[01]|[12][0-9]|0[1-9]|[1-9]`. -/
def dayAlts (s : List Char) : List (Nat × List Char) :=
  match s with
  | [] => []
  | [c] => if '1' ≤ c && c ≤ '9' then [(dv c, [])] else []
  | c1 :: c2 :: rest =>
    (if c1 = '3' && (c2 = '0' || c2 = '1') then [(30 + dv c2, rest)]
     else if (c1 = '1' || c1 = '2') && c2.isDigit then [(10 * dv c1 + dv c2, rest)]
     else if c1 = '0' && '1' ≤ c2 && c2 ≤ '9' then [(dv c2, rest)]
     else [])
    ++ (if '1' ≤ c1 && c1 ≤ '9' then [(dv c1, c2 :: rest)] else [])

/-- Whether `datetime.datetime.strptime(s, "%Y%m%d")` succeeds: a four-digit
year, then (with regex backtracking) a one- or two-digit month and day that
consume the whole string and form a valid calendar date with year at least
0001. -/
def strptimeYmdOk (s : List Char) : Bool :=
  match parseYear4 s with
  | none => false
  | some yr =>
    (monthAlts yr.2).any (fun mr =>
      (dayAlts mr.2).any (fun dr =>
        dr.2.isEmpty && 1 ≤ yr.1 && dr.1 ≤ daysInMonth yr.1 mr.1))

/-- `validate_day` (lines 50-70 of `ToolValidator.py`): an altered value that
is not a weekday name must be accepted by `strptime(value, "%Y%m%d")`;
otherwise the YYYYMMDD error is set. When the date does parse and the UI's
own choice-list error (ERROR 000800) is present, it is downgraded to a
calendar-range warning. -/
def validate_day (param_day : Parameter) : Parameter :=
  if param_day.altered then
    if valueAsText param_day ∈ days then param_day
    else
      if strptimeYmdOk (valueAsText param_day).data then
        if hasErrorB param_day then
          if ⟨(message param_day).data.takeWhile (fun c => c ≠ ':')⟩ = ("ERROR 000800" : String) then
            setWarningMessage param_day
              ("You have chosen to use a specific date for this analysis. Please double check " ++
               "your GTFS calendar.txt and/or calendar_dates.txt files to make sure this specific " ++
               "date falls within the date range covered by your GTFS data.")
          else param_day
        else param_day
      else
        setErrorMessage param_day "Please enter a date in YYYYMMDD format or a weekday."
  else param_day

/-- `set_end_day` (lines 73-83): mirror a fresh start-day value into the end
day, then gray the end day out exactly when the start day is a weekday
name. -/
def set_end_day (param_startday param_endday : Parameter) : Parameter × Parameter :=
  let param_endday :=
    if valueAsText param_startday ≠ "" && !param_startday.hasBeenValidated then
      { param_endday with value := param_startday.value }
    else param_endday
  let param_endday :=
    if valueAsText param_startday ∈ days then { param_endday with enabled := false }
    else { param_endday with enabled := true }
  (param_startday, param_endday)

/-- Python's `\s` character class. -/
def pySpace (c : Char) : Bool :=
  c = ' ' || c = '\t' || c = '\n' || c = Char.ofNat 13 || c = Char.ofNat 11 || c = Char.ofNat 12

/-- The regex `^\s*([0-9]{2}):([0-9]{2})\s*$` of `is_time_valid`: on a match,
the hour and minute groups as numbers. -/
def timeMatch (s : List Char) : Option (Nat × Nat) :=
  match s.dropWhile pySpace with
  | a :: b :: c :: d :: e :: rest =>
    if a.isDigit && b.isDigit && c = ':' && d.isDigit && e.isDigit && rest.all pySpace then
      some (10 * dv a + dv b, 10 * dv d + dv e)
    else none
  | _ => none

/-- Seconds since midnight as computed on lines 115-118
(`float(H) * 3600 + float(M) * 60` after splitting a pattern-matched value on
the colon; on such values the float arithmetic is exactly this natural
number). -/
def timeSeconds (s : List Char) : Nat :=
  match timeMatch s with
  | some hm => hm.1 * 3600 + hm.2 * 60
  | none => 0

/-- The inner `is_time_valid` of `check_time_window` (lines 89-106): an
altered value must match the HH:MM pattern and have hours at most 48 and
minutes at most 59, else the parameter gets an error message and the check
reports invalid; an unaltered parameter is left alone and reported valid. -/
def is_time_valid (param_time : Parameter) : Parameter × Bool :=
  if param_time.altered then
    match timeMatch (valueAsText param_time).data with
    | none =>
      (setErrorMessage param_time
        ("Time of day format should be HH:MM (24-hour time). " ++
         "For example, 2am is 02:00, and 2pm is 14:00."), false)
    | some hm =>
      if 48 < hm.1 then
        (setErrorMessage param_time "Hours cannot be > 48; minutes cannot be > 59.", false)
      else if 59 < hm.2 then
        (setErrorMessage param_time "Hours cannot be > 48; minutes cannot be > 59.", false)
      else (param_time, true)
  else (param_time, true)

/-- `check_time_window` (lines 86-121): validate both time parameters, then,
when the start-day and end-day texts are equal and both time parameters are
altered and valid, require the end seconds-since-midnight to be strictly
greater than the start; otherwise the end-time parameter gets the
window-invalid error. Returns the (possibly updated) start-time and end-time
parameters. -/
def check_time_window (param_starttime param_endtime param_startday param_endday : Parameter) :
    Parameter × Parameter :=
  let r1 := is_time_valid param_starttime
  let r2 := is_time_valid param_endtime
  if valueAsText param_startday = valueAsText param_endday then
    if param_starttime.altered && param_endtime.altered && r1.2 && r2.2 then
      let seconds1 := timeSeconds (valueAsText r1.1).data
      let seconds2 := timeSeconds (valueAsText r2.1).data
      if seconds2 ≤ seconds1 then
        (r1.1, setErrorMessage r2.1
          ("Time window invalid!  Make sure the time window end is later than the " ++
           "time window start."))
      else (r1.1, r2.1)
    else (r1.1, r2.1)
  else (r1.1, r2.1)

/-- Formalisation of claim C8's own words (not of the source): an 8-digit
`YYYYMMDD` string denoting a valid calendar date. Used only to compare the
claim's acceptance condition with the source's actual `strptime` one. -/
def isEightDigitDate (s : String) : Bool :=
  match s.data with
  | [y1, y2, y3, y4, m1, m2, d1, d2] =>
    if y1.isDigit && y2.isDigit && y3.isDigit && y4.isDigit &&
        m1.isDigit && m2.isDigit && d1.isDigit && d2.isDigit then
      let y := 1000 * dv y1 + 100 * dv y2 + 10 * dv y3 + dv y4
      let m := 10 * dv m1 + dv m2
      let d := 10 * dv d1 + dv d2
      decide (1 ≤ y) && decide (1 ≤ m) && decide (m ≤ 12) &&
        decide (1 ≤ d) && decide (d ≤ daysInMonth y m)
    else false
  | _ => false

/-! Helper lemmas: dictionary reads and writes, and the solve-loop counter. -/

theorem alGet_alSet_self {α : Type} (l : KVList α) (k : Nat) (v : α) :
    alGet (alSet l k v) k = some v := by
  induction l with
  | nil => simp [alGet, alSet]
  | cons p rest ih =>
    by_cases h : p.1 = k
    · simp [alSet, h, alGet]
    · simp [alSet, h, alGet, ih]

theorem alGet_alSet_ne {α : Type} (l : KVList α) (k k2 : Nat) (v : α) (h : k2 ≠ k) :
    alGet (alSet l k v) k2 = alGet l k2 := by
  induction l with
  | nil => simp [alGet, alSet, Ne.symm h]
  | cons p rest ih =>
    by_cases hp : p.1 = k
    · simp [alSet, hp, alGet, Ne.symm h]
    · simp [alSet, hp, alGet, ih]

theorem odGet_eq (dict : ODDict) (o d : Nat) :
    odGet dict o d = (alGet ((alGet dict o).getD []) d).getD 0 := by
  unfold odGet
  cases alGet dict o with
  | none => simp [alGet]
  | some inner => rfl

theorem odGet_addLine (dict : ODDict) (o2 d2 o d : Nat) :
    odGet (addLine dict o2 d2) o d = odGet dict o d + (if o = o2 ∧ d = d2 then 1 else 0) := by
  rw [odGet_eq, odGet_eq]
  simp only [addLine]
  by_cases ho : o = o2
  · subst ho
    rw [alGet_alSet_self]
    by_cases hd : d = d2
    · subst hd
      cases hin : alGet ((alGet dict o).getD []) d with
      | none => simp [hin, alGet_alSet_self]
      | some c => simp [hin, alGet_alSet_self]
    · cases hin : alGet ((alGet dict o).getD []) d2 with
      | none => simp [hin, alGet_alSet_ne _ _ _ _ hd, hd, fun hh : d = d2 ∧ True => hd hh.1]
      | some c => simp [hin, alGet_alSet_ne _ _ _ _ hd, hd]
  · rw [alGet_alSet_ne _ _ _ _ ho]
    simp [ho, fun hh : o = o2 ∧ d = d2 => ho hh.1]

theorem linesCount_cons (p : Nat × Nat) (rest : List (Nat × Nat)) (o d : Nat) :
    linesCount (p :: rest) o d
      = (if p.1 = o ∧ p.2 = d then 1 else 0) + linesCount rest o d := by
  unfold linesCount
  by_cases hp : p.1 = o ∧ p.2 = d
  · simp [List.filter_cons, hp, Nat.add_comm]
  · simp [List.filter_cons, hp]

theorem odGet_applyLines (lines : List (Nat × Nat)) (dict : ODDict) (o d : Nat) :
    odGet (lines.foldl (fun dd p => addLine dd p.1 p.2) dict) o d
      = odGet dict o d + linesCount lines o d := by
  induction lines generalizing dict with
  | nil => simp [linesCount]
  | cons p rest ih =>
    rw [List.foldl_cons, ih, odGet_addLine, linesCount_cons]
    by_cases hp : p.1 = o ∧ p.2 = d
    · have hp2 : o = p.1 ∧ d = p.2 := ⟨hp.1.symm, hp.2.symm⟩
      simp only [if_pos hp, if_pos hp2]
      omega
    · have hp2 : ¬(o = p.1 ∧ d = p.2) := fun hh => hp ⟨hh.1.symm, hh.2.symm⟩
      simp only [if_neg hp, if_neg hp2]
      omega

theorem odGet_applyOutcome (dict : ODDict) (oc : SolveOutcome) (o d : Nat) :
    odGet (applyOutcome dict oc) o d
      = odGet dict o d +
        (match oc with
         | SolveOutcome.success lines => linesCount lines o d
         | SolveOutcome.failure _ => 0) := by
  cases oc with
  | success lines => simpa [applyOutcome] using odGet_applyLines lines dict o d
  | failure errs => simp [applyOutcome]

theorem odGet_foldl_outcomes (outcomes : List SolveOutcome) (dict : ODDict) (o d : Nat) :
    odGet (outcomes.foldl applyOutcome dict) o d
      = odGet dict o d + successPairCount outcomes o d := by
  induction outcomes generalizing dict with
  | nil => simp [successPairCount]
  | cons oc rest ih =>
    rw [List.foldl_cons, ih, odGet_applyOutcome]
    simp [successPairCount]
    omega

theorem odGet_runODDict (outcomes : List SolveOutcome) (o d : Nat) :
    odGet (runODDict outcomes) o d = successPairCount outcomes o d := by
  have h0 : odGet ([] : ODDict) o d = 0 := by simp [odGet, alGet]
  rw [runODDict, odGet_foldl_outcomes, h0, Nat.zero_add]

theorem solveLoop_eq_runODDict (timelist : List Nat) (solver : Nat → SolveOutcome) :
    solveLoop timelist solver = runODDict (timelist.map solver) := by
  rw [solveLoop, runODDict, List.foldl_map]

/-! Helper lemmas: closed forms of the statistics fold. -/

theorem alGet_bumpBuckets (l : KVList Rat) (p a : Rat) (t : Nat) :
    alGet (bumpBuckets l p a) t
      = (alGet l t).map (fun v => if (t : Rat) ≤ p then v + a else v) := by
  induction l with
  | nil => simp [bumpBuckets, alGet]
  | cons b rest ih =>
    obtain ⟨bk, bv⟩ := b
    simp only [bumpBuckets, List.map_cons] at ih ⊢
    by_cases hb : bk = t
    · subst hb
      by_cases hc : (bk : Rat) ≤ p <;> simp [alGet, hc]
    · by_cases hc : (bk : Rat) ≤ p <;> simp [alGet, hb, hc, ih]

theorem alGet_mapPerc (l : KVList Rat) (nd : Rat) (t : Nat) :
    alGet (l.map (fun b => (b.1, b.2 / nd * 100))) t
      = (alGet l t).map (fun v => v / nd * 100) := by
  induction l with
  | nil => simp [alGet]
  | cons b rest ih =>
    by_cases hb : b.1 = t
    · simp [alGet, hb]
    · simpa [alGet, hb] using ih

theorem statFold_fst (ddict : KVList Nat) (wdict : KVList Rat) (n : Nat)
    (dests : List (Nat × Nat)) (acc : Rat × KVList Rat) :
    (dests.foldl (statStep ddict wdict n) acc).1 = acc.1 + reachedTotal dests ddict wdict := by
  induction dests generalizing acc with
  | nil => simp [reachedTotal]
  | cons dc rest ih =>
    rw [List.foldl_cons, ih]
    by_cases hc : 0 < dc.2
    · simp [statStep, hc, reachedTotal, add_assoc]
    · simp [statStep, hc, reachedTotal]

theorem statFold_snd (ddict : KVList Nat) (wdict : KVList Rat) (n : Nat)
    (dests : List (Nat × Nat)) (acc : Rat × KVList Rat) (t : Nat) :
    alGet (dests.foldl (statStep ddict wdict n) acc).2 t
      = (alGet acc.2 t).map (fun v => v + bucketTotal dests ddict wdict n t) := by
  induction dests generalizing acc with
  | nil =>
    cases h : alGet acc.2 t <;> simp [bucketTotal, h]
  | cons dc rest ih =>
    rw [List.foldl_cons, ih]
    by_cases hc : 0 < dc.2
    · by_cases hp : (t : Rat) ≤ percentOfTimesReachable dc.2 n
      · simp only [statStep, if_pos hc, alGet_bumpBuckets]
        cases h : alGet acc.2 t with
        | none => simp
        | some v =>
          simp only [Option.map_some, Option.map_map]
          simp [bucketTotal, hc, hp, Function.comp, add_assoc]
      · simp only [statStep, if_pos hc, alGet_bumpBuckets]
        cases h : alGet acc.2 t with
        | none => simp
        | some v =>
          simp only [Option.map_some, Option.map_map]
          simp [bucketTotal, hc, hp, Function.comp]
    · have : statStep ddict wdict n acc dc = acc := by simp [statStep, hc]
      rw [this]
      cases h : alGet acc.2 t with
      | none => simp
      | some v => simp [bucketTotal, hc]

theorem alGet_initBuckets (t : Nat) (ht : t ∈ thresholdList) :
    alGet initBuckets t = some 0 := by
  fin_cases ht <;> rfl

theorem computeOriginStats_totalDests (odict : ODDict) (ddict : KVList Nat)
    (wdict : KVList Rat) (nd : Rat) (n o : Nat) :
    (computeOriginStats odict ddict wdict nd n o).totalDests
      = reachedTotal ((alGet odict o).getD []) ddict wdict := by
  simp [computeOriginStats, statFold_fst]

theorem computeOriginStats_percDests (odict : ODDict) (ddict : KVList Nat)
    (wdict : KVList Rat) (nd : Rat) (n o : Nat) :
    (computeOriginStats odict ddict wdict nd n o).percDests
      = reachedTotal ((alGet odict o).getD []) ddict wdict / nd * 100 := by
  simp [computeOriginStats, statFold_fst]

theorem computeOriginStats_dsAL (odict : ODDict) (ddict : KVList Nat)
    (wdict : KVList Rat) (nd : Rat) (n o t : Nat) (ht : t ∈ thresholdList) :
    alGet (computeOriginStats odict ddict wdict nd n o).dsALPerc t
      = some (bucketTotal ((alGet odict o).getD []) ddict wdict n t) := by
  simp [computeOriginStats, statFold_snd, alGet_initBuckets t ht]

theorem computeOriginStats_psAL (odict : ODDict) (ddict : KVList Nat)
    (wdict : KVList Rat) (nd : Rat) (n o t : Nat) (ht : t ∈ thresholdList) :
    alGet (computeOriginStats odict ddict wdict nd n o).psALPerc t
      = some (bucketTotal ((alGet odict o).getD []) ddict wdict n t / nd * 100) := by
  simp [computeOriginStats, alGet_mapPerc, statFold_snd, alGet_initBuckets t ht]

/-! Helper lemmas: monotonicity of the threshold buckets. -/

theorem destsToAdd_nonneg (ddict : KVList Nat) (wdict : KVList Rat)
    (hw : ∀ k v, alGet wdict k = some v → 0 ≤ v) (destOid : Nat) :
    0 ≤ destsToAdd ddict wdict destOid := by
  unfold destsToAdd
  by_cases he : wdict.isEmpty
  · simp [he]
  · simp only [he, if_false]
    cases h : alGet wdict ((alGet ddict destOid).getD 0) with
    | none => simp
    | some v => simpa using hw _ v h

theorem bucketTotal_antitone (dests : List (Nat × Nat)) (ddict : KVList Nat)
    (wdict : KVList Rat) (n : Nat) (hw : ∀ k v, alGet wdict k = some v → 0 ≤ v)
    (t1 t2 : Nat) (h12 : t1 ≤ t2) :
    bucketTotal dests ddict wdict n t2 ≤ bucketTotal dests ddict wdict n t1 := by
  induction dests with
  | nil => simp [bucketTotal]
  | cons dc rest ih =>
    unfold bucketTotal at ih ⊢
    simp only [List.map_cons, List.sum_cons]
    refine add_le_add ?_ ih
    by_cases hc2 : 0 < dc.2 ∧ (t2 : Rat) ≤ percentOfTimesReachable dc.2 n
    · have hc1 : 0 < dc.2 ∧ (t1 : Rat) ≤ percentOfTimesReachable dc.2 n :=
        ⟨hc2.1, le_trans (by exact_mod_cast Nat.cast_le.mpr h12) hc2.2⟩
      rw [if_pos hc2, if_pos hc1]
    · rw [if_neg hc2]
      by_cases hc1 : 0 < dc.2 ∧ (t1 : Rat) ≤ percentOfTimesReachable dc.2 n
      · rw [if_pos hc1]
        exact destsToAdd_nonneg ddict wdict hw dc.1
      · rw [if_neg hc1]

/-! Claim theorems. -/

/-- C1 (confirmed): for every origin and destination with a positive
reachability count, the percent of times reachable is
`100 * count / len(timelist)`, where `len(timelist)` is the length of the
full scheduled departure-instant list built before the solve loop; the count
itself accrues only from successful solves, and appending a failed instant
to the schedule leaves every count unchanged (so skipped/failed instants
still enlarge the denominator). -/
theorem C1_percent_denominator (timelist : List Nat) (solver : Nat → SolveOutcome)
    (ddict : KVList Nat) (wdict : KVList Rat) (nd : Rat) (o d : Nat)
    (_hpos : 0 < odGet (solveLoop timelist solver) o d) :
    odGet (solveLoop timelist solver) o d = successPairCount (timelist.map solver) o d
    ∧ runReachabilityStats timelist solver ddict wdict nd o
        = computeOriginStats (solveLoop timelist solver) ddict wdict nd timelist.length o
    ∧ percentOfTimesReachable (odGet (solveLoop timelist solver) o d) timelist.length
        = 100 * (successPairCount (timelist.map solver) o d : Rat) / (timelist.length : Rat)
    ∧ ∀ t2 errs, solver t2 = SolveOutcome.failure errs →
        odGet (solveLoop (timelist ++ [t2]) solver) o d
          = odGet (solveLoop timelist solver) o d := by
  have hcount : odGet (solveLoop timelist solver) o d
      = successPairCount (timelist.map solver) o d := by
    rw [solveLoop_eq_runODDict, odGet_runODDict]
  refine ⟨hcount, rfl, ?_, ?_⟩
  · rw [hcount, percentOfTimesReachable, mul_comm, ← mul_div_assoc]
  · intro t2 errs herr
    have happ : solveLoop (timelist ++ [t2]) solver
        = applyOutcome (solveLoop timelist solver) (solver t2) := by
      simp [solveLoop, List.foldl_append]
    rw [happ, herr]
    rfl

/-- C1 witness: a two-instant schedule whose second solve fails; the pair
(1, 2) is reached once and its percent uses denominator 2. -/
theorem C1_percent_denominator_witness :
    0 < odGet (solveLoop [0, 1]
        (fun t => if t = 0 then SolveOutcome.success [(1, 2)]
                  else SolveOutcome.failure "No solution found")) 1 2
    ∧ percentOfTimesReachable (odGet (solveLoop [0, 1]
        (fun t => if t = 0 then SolveOutcome.success [(1, 2)]
                  else SolveOutcome.failure "No solution found")) 1 2) 2
      = 100 * ((successPairCount ([0, 1].map
          (fun t => if t = 0 then SolveOutcome.success [(1, 2)]
                    else SolveOutcome.failure "No solution found")) 1 2 : Nat) : Rat) / 2 :=
  ⟨by decide,
   (C1_percent_denominator [0, 1]
      (fun t => if t = 0 then SolveOutcome.success [(1, 2)]
                else SolveOutcome.failure "No solution found")
      [] [] 0 1 2 (by decide)).2.2.1⟩

/-- C2 counterexample: for a solve failure whose diagnostics do not contain
"No solution found", the tool emits exactly one message, and its severity is
info (the source calls `arcpy.AddMessage`, not `arcpy.AddWarning`), so the
claim that a warning message is reported is false. -/
theorem C2_counterexample :
    solveStepMessages (SolveOutcome.failure "Out of memory")
      = [⟨MsgSeverity.info,
          "Solve failed.  Errors: Out of memory. Continuing to next time of day."⟩]
    ∧ (solveStepMessages (SolveOutcome.failure "Out of memory")).map ToolMessage.sev
        ≠ [MsgSeverity.warning] := by
  constructor
  · decide
  · decide

/-- C2 (corrected): a solve failure never aborts the run: the counter is
unchanged, the loop continues past the failed instant, a failure whose
diagnostics contain "No solution found" is silent, any other failure is
reported with an informational message (not a warning), and every message
this block emits has info severity. -/
theorem C2_failure_never_aborts (dict : ODDict) (xs ys : List SolveOutcome) (errs : String) :
    applyOutcome dict (SolveOutcome.failure errs) = dict
    ∧ runODDict (xs ++ SolveOutcome.failure errs :: ys) = runODDict (xs ++ ys)
    ∧ (containsSub errs.data "No solution found".data = true →
        solveStepMessages (SolveOutcome.failure errs) = [])
    ∧ (containsSub errs.data "No solution found".data = false →
        solveStepMessages (SolveOutcome.failure errs)
          = [⟨MsgSeverity.info,
              "Solve failed.  Errors: " ++ errs ++ ". Continuing to next time of day."⟩])
    ∧ ∀ m ∈ solveStepMessages (SolveOutcome.failure errs), m.sev = MsgSeverity.info := by
  refine ⟨rfl, ?_, ?_, ?_, ?_⟩
  · simp [runODDict, List.foldl_append, applyOutcome]
  · intro h
    simp [solveStepMessages, h]
  · intro h
    simp [solveStepMessages, h]
  · intro m hm
    by_cases h : containsSub errs.data "No solution found".data
    · simp [solveStepMessages, h] at hm
    · simp [solveStepMessages, h] at hm
      rw [hm]

/-- C2 witness: a concrete "other" failure is reported with the info message
and the run state is untouched. -/
theorem C2_failure_never_aborts_witness :
    containsSub ("Failed to solve").data ("No solution found").data = false
    ∧ solveStepMessages (SolveOutcome.failure "Failed to solve")
        = [⟨MsgSeverity.info,
            "Solve failed.  Errors: Failed to solve. Continuing to next time of day."⟩] :=
  ⟨by decide, (C2_failure_never_aborts [] [] [] "Failed to solve").2.2.2.1 (by decide)⟩

/-- C4 (confirmed): with a weight field, destinations whose weight is NULL or
zero are excluded by the pre-load filter; the remaining destinations are what
gets loaded, the weight dict is built from them, and the destination universe
total is the sum of their weights; if the filter leaves nothing, the run
fails with the fatal weight-field error. -/
theorem C4_weight_filtering (fld : String) (dests : List Dest) :
    (∀ d ∈ dests, (d.weight = none ∨ d.weight = some 0) → d ∉ filterDestinations dests)
    ∧ (∀ d ∈ dests, (∃ w, d.weight = some w ∧ w ≠ 0) → d ∈ filterDestinations dests)
    ∧ (filterDestinations dests = [] →
        prepareDestinations (some fld) dests
          = SetupResult.fatal ("The weight field " ++ fld ++
              " of your input Destinations table has values of 0 or Null for all rows."))
    ∧ (filterDestinations dests ≠ [] →
        prepareDestinations (some fld) dests
          = SetupResult.ok (filterDestinations dests)
              ((filterDestinations dests).map (fun x => (x.oid, x.weight.getD 0)))
              (((filterDestinations dests).map (fun x => x.weight.getD 0)).sum)) := by
  refine ⟨?_, ?_, ?_, ?_⟩
  · intro d hd hw hmem
    rcases hw with h | h <;>
      simp [filterDestinations, List.mem_filter, destinationPassesFilter, h] at hmem
  · intro d hd hw
    rcases hw with ⟨w, hw, hnz⟩
    exact List.mem_filter.mpr ⟨hd, by simp [destinationPassesFilter, hw, hnz]⟩
  · intro h
    simp [prepareDestinations, h]
  · intro h
    have hlen : ¬(filterDestinations dests).length = 0 := by
      simpa [List.length_eq_zero] using h
    simp [prepareDestinations, hlen]

/-- C4 witness: the spec's own example, weights [0, NULL, 5, 3]: two
destinations survive and the universe total is 8. -/
theorem C4_weight_filtering_witness :
    filterDestinations [⟨1, some 0⟩, ⟨2, none⟩, ⟨3, some 5⟩, ⟨4, some 3⟩] ≠ []
    ∧ prepareDestinations (some "Jobs") [⟨1, some 0⟩, ⟨2, none⟩, ⟨3, some 5⟩, ⟨4, some 3⟩]
        = SetupResult.ok [⟨3, some 5⟩, ⟨4, some 3⟩] [(3, 5), (4, 3)] 8 := by
  refine ⟨by decide, ?_⟩
  rw [(C4_weight_filtering "Jobs"
        [⟨1, some 0⟩, ⟨2, none⟩, ⟨3, some 5⟩, ⟨4, some 3⟩]).2.2.2 (by decide)]
  have hf : filterDestinations [⟨1, some 0⟩, ⟨2, none⟩, ⟨3, some 5⟩, ⟨4, some 3⟩]
      = [⟨3, some 5⟩, ⟨4, some 3⟩] := by decide
  rw [hf]
  simp only [List.map_cons, List.map_nil, List.sum_cons, List.sum_nil, Option.getD_some]
  norm_num

/-- C5 (confirmed): an origin whose solver OID is absent from the
reachability counter gets all-zero statistics: `TotalDests` and `PercDests`
are 0 and every one of the nine threshold buckets and their percentages is
0. -/
theorem C5_absent_origin_zero_stats (odict : ODDict) (ddict : KVList Nat)
    (wdict : KVList Rat) (nd : Rat) (n o : Nat) (h : alGet odict o = none) :
    (computeOriginStats odict ddict wdict nd n o).totalDests = 0
    ∧ (computeOriginStats odict ddict wdict nd n o).percDests = 0
    ∧ ∀ t ∈ thresholdList,
        alGet (computeOriginStats odict ddict wdict nd n o).dsALPerc t = some 0
        ∧ alGet (computeOriginStats odict ddict wdict nd n o).psALPerc t = some 0 := by
  have hin : (alGet odict o).getD [] = ([] : List (Nat × Nat)) := by rw [h]; rfl
  refine ⟨?_, ?_, ?_⟩
  · rw [computeOriginStats_totalDests, hin]
    simp [reachedTotal]
  · rw [computeOriginStats_percDests, hin]
    simp [reachedTotal]
  · intro t ht
    constructor
    · rw [computeOriginStats_dsAL odict ddict wdict nd n o t ht, hin]
      simp [bucketTotal]
    · rw [computeOriginStats_psAL odict ddict wdict nd n o t ht, hin]
      simp [bucketTotal]

/-- C5 witness: origin 1 never appears in a counter that only mentions origin
5, so its statistics are zero. -/
theorem C5_absent_origin_zero_stats_witness :
    alGet [(5, [(1, 2)])] 1 = none
    ∧ (computeOriginStats [(5, [(1, 2)])] [] [] 7 3 1).totalDests = 0
    ∧ (computeOriginStats [(5, [(1, 2)])] [] [] 7 3 1).percDests = 0
    ∧ alGet (computeOriginStats [(5, [(1, 2)])] [] [] 7 3 1).dsALPerc 10 = some 0
    ∧ alGet (computeOriginStats [(5, [(1, 2)])] [] [] 7 3 1).psALPerc 90 = some 0 :=
  ⟨by decide,
   (C5_absent_origin_zero_stats [(5, [(1, 2)])] [] [] 7 3 1 (by decide)).1,
   (C5_absent_origin_zero_stats [(5, [(1, 2)])] [] [] 7 3 1 (by decide)).2.1,
   ((C5_absent_origin_zero_stats [(5, [(1, 2)])] [] [] 7 3 1 (by decide)).2.2 10 (by decide)).1,
   ((C5_absent_origin_zero_stats [(5, [(1, 2)])] [] [] 7 3 1 (by decide)).2.2 90 (by decide)).2⟩

/-- C3 counterexample: with a negative destination weight (which the weight
filter lets through), the bucket counts can increase with the threshold: a
weight -5 destination reached 10 percent of 10 instants and a weight 3
destination reached 90 percent give `DsAL10Perc = -2 < DsAL90Perc = 3`, so
the unconditional non-increasing claim is false. -/
theorem C3_counterexample :
    alGet (computeOriginStats [(1, [(1, 1), (2, 9)])] [(1, 101), (2, 102)]
        [(101, -5), (102, 3)] (-2) 10 1).dsALPerc 10 = some (-2)
    ∧ alGet (computeOriginStats [(1, [(1, 1), (2, 9)])] [(1, 101), (2, 102)]
        [(101, -5), (102, 3)] (-2) 10 1).dsALPerc 90 = some 3
    ∧ ¬((alGet (computeOriginStats [(1, [(1, 1), (2, 9)])] [(1, 101), (2, 102)]
          [(101, -5), (102, 3)] (-2) 10 1).dsALPerc 90).getD 0
        ≤ (alGet (computeOriginStats [(1, [(1, 1), (2, 9)])] [(1, 101), (2, 102)]
          [(101, -5), (102, 3)] (-2) 10 1).dsALPerc 10).getD 0) := by
  have h10 : alGet (computeOriginStats [(1, [(1, 1), (2, 9)])] [(1, 101), (2, 102)]
      [(101, -5), (102, 3)] (-2) 10 1).dsALPerc 10 = some (-2) := by
    rw [computeOriginStats_dsAL _ _ _ _ _ _ 10 (by decide)]
    norm_num [alGet, bucketTotal, percentOfTimesReachable, destsToAdd, List.isEmpty]
  have h90 : alGet (computeOriginStats [(1, [(1, 1), (2, 9)])] [(1, 101), (2, 102)]
      [(101, -5), (102, 3)] (-2) 10 1).dsALPerc 90 = some 3 := by
    rw [computeOriginStats_dsAL _ _ _ _ _ _ 90 (by decide)]
    norm_num [alGet, bucketTotal, percentOfTimesReachable, destsToAdd, List.isEmpty]
  refine ⟨h10, h90, ?_⟩
  rw [h10, h90]
  norm_num

/-- C3 (corrected): provided every weight in the weight dict is nonnegative
(in particular always in the unweighted case) and the destination universe
total is nonnegative, both the `DsAL{t}Perc` bucket value and the
`PsAL{t}Perc` percentage are non-increasing as the threshold grows from 10
to 90. -/
theorem C3_buckets_monotone (odict : ODDict) (ddict : KVList Nat) (wdict : KVList Rat)
    (nd : Rat) (n o t1 t2 : Nat)
    (hw : ∀ k v, alGet wdict k = some v → 0 ≤ v) (hnd : 0 ≤ nd)
    (h1 : t1 ∈ thresholdList) (h2 : t2 ∈ thresholdList) (h12 : t1 ≤ t2) :
    (alGet (computeOriginStats odict ddict wdict nd n o).dsALPerc t2).getD 0
      ≤ (alGet (computeOriginStats odict ddict wdict nd n o).dsALPerc t1).getD 0
    ∧ (alGet (computeOriginStats odict ddict wdict nd n o).psALPerc t2).getD 0
      ≤ (alGet (computeOriginStats odict ddict wdict nd n o).psALPerc t1).getD 0 := by
  have hb := bucketTotal_antitone ((alGet odict o).getD []) ddict wdict n hw t1 t2 h12
  constructor
  · rw [computeOriginStats_dsAL _ _ _ _ _ _ t1 h1, computeOriginStats_dsAL _ _ _ _ _ _ t2 h2]
    simpa using hb
  · rw [computeOriginStats_psAL _ _ _ _ _ _ t1 h1, computeOriginStats_psAL _ _ _ _ _ _ t2 h2]
    simp only [Option.getD_some]
    have hdiv : bucketTotal ((alGet odict o).getD []) ddict wdict n t2 / nd
        ≤ bucketTotal ((alGet odict o).getD []) ddict wdict n t1 / nd := by
      rw [div_eq_mul_inv, div_eq_mul_inv]
      exact mul_le_mul_of_nonneg_right hb (inv_nonneg.mpr hnd)
    exact mul_le_mul_of_nonneg_right hdiv (by norm_num)

/-- C3 witness: an unweighted run with one destination reached 3 of 4
instants; the 90 percent bucket is at most the 10 percent bucket, in count
and in percentage. -/
theorem C3_buckets_monotone_witness :
    (alGet (computeOriginStats [(1, [(2, 3)])] [] [] 4 4 1).dsALPerc 90).getD 0
      ≤ (alGet (computeOriginStats [(1, [(2, 3)])] [] [] 4 4 1).dsALPerc 10).getD 0
    ∧ (alGet (computeOriginStats [(1, [(2, 3)])] [] [] 4 4 1).psALPerc 90).getD 0
      ≤ (alGet (computeOriginStats [(1, [(2, 3)])] [] [] 4 4 1).psALPerc 10).getD 0 :=
  C3_buckets_monotone [(1, [(2, 3)])] [] [] 4 4 1 10 90
    (by intro k v h; simp [alGet] at h) (by norm_num) (by decide) (by decide) (by decide)

/-- C10 (confirmed): a destination with a negative, non-null weight survives
the weight filter, is part of the loaded layer whose weights are summed into
the destination universe total, and when reached contributes its negative
weight to the origin's total and to every threshold bucket whose threshold
its percent of times reachable meets. -/
theorem C10_negative_weights (dests : List Dest) (d : Dest) (w : Rat) (fld : String)
    (odict : ODDict) (ddict : KVList Nat) (wdict : KVList Rat)
    (sd c : Nat) (rest : List (Nat × Nat)) (o : Nat) (nd : Rat) (n : Nat)
    (hmem : d ∈ dests) (hw : d.weight = some w) (hneg : w < 0)
    (hwne : wdict.isEmpty = false)
    (hdd : alGet ddict sd = some d.oid) (hwd : alGet wdict d.oid = some w)
    (hod : alGet odict o = some ((sd, c) :: rest)) (hc : 0 < c) :
    d ∈ filterDestinations dests
    ∧ prepareDestinations (some fld) dests
        = SetupResult.ok (filterDestinations dests)
            ((filterDestinations dests).map (fun x => (x.oid, x.weight.getD 0)))
            (((filterDestinations dests).map (fun x => x.weight.getD 0)).sum)
    ∧ (computeOriginStats odict ddict wdict nd n o).totalDests
        = w + reachedTotal rest ddict wdict
    ∧ ∀ t, t ∈ thresholdList → (t : Rat) ≤ percentOfTimesReachable c n →
        alGet (computeOriginStats odict ddict wdict nd n o).dsALPerc t
          = some (w + bucketTotal rest ddict wdict n t) := by
  have hmem2 : d ∈ filterDestinations dests :=
    List.mem_filter.mpr ⟨hmem, by simp [destinationPassesFilter, hw, hneg.ne]⟩
  have hamt : destsToAdd ddict wdict sd = w := by
    simp [destsToAdd, hwne, hdd, hwd]
  refine ⟨hmem2, ?_, ?_, ?_⟩
  · have hne2 : ¬(filterDestinations dests).length = 0 := by
      simp only [List.length_eq_zero]
      intro hh
      rw [hh] at hmem2
      exact absurd hmem2 (List.not_mem_nil d)
    simp [prepareDestinations, hne2]
  · rw [computeOriginStats_totalDests, hod]
    simp [reachedTotal, hc, hamt]
  · intro t ht hpt
    rw [computeOriginStats_dsAL _ _ _ _ _ _ t ht, hod]
    simp [bucketTotal, hc, hpt, hamt]

/-- C10 witness: a single destination of weight -4, reached 3 of 4 instants,
survives the filter and contributes -4 to the total and to the 50 percent
bucket. -/
theorem C10_negative_weights_witness :
    (⟨7, some (-4)⟩ : Dest) ∈ filterDestinations [⟨7, some (-4)⟩]
    ∧ (computeOriginStats [(1, [(2, 3)])] [(2, 7)] [(7, -4)] 1 4 1).totalDests
        = -4 + reachedTotal [] [(2, 7)] [(7, -4)]
    ∧ alGet (computeOriginStats [(1, [(2, 3)])] [(2, 7)] [(7, -4)] 1 4 1).dsALPerc 50
        = some (-4 + bucketTotal [] [(2, 7)] [(7, -4)] 4 50) :=
  ⟨(C10_negative_weights [⟨7, some (-4)⟩] ⟨7, some (-4)⟩ (-4) "Jobs"
      [(1, [(2, 3)])] [(2, 7)] [(7, -4)] 2 3 [] 1 1 4
      (by decide) rfl (by norm_num) rfl (by decide) (by decide) (by decide) (by decide)).1,
   (C10_negative_weights [⟨7, some (-4)⟩] ⟨7, some (-4)⟩ (-4) "Jobs"
      [(1, [(2, 3)])] [(2, 7)] [(7, -4)] 2 3 [] 1 1 4
      (by decide) rfl (by norm_num) rfl (by decide) (by decide) (by decide) (by decide)).2.2.1,
   (C10_negative_weights [⟨7, some (-4)⟩] ⟨7, some (-4)⟩ (-4) "Jobs"
      [(1, [(2, 3)])] [(2, 7)] [(7, -4)] 2 3 [] 1 1 4
      (by decide) rfl (by norm_num) rfl (by decide) (by decide) (by decide) (by decide)).2.2.2
     50 (by decide) (by norm_num [percentOfTimesReachable])⟩

/-! Validator claim theorems. -/

theorem is_time_valid_fst_of_snd (p : Parameter) (h : (is_time_valid p).2 = true) :
    (is_time_valid p).1 = p := by
  unfold is_time_valid at h ⊢
  by_cases ha : p.altered = true
  · rw [if_pos ha] at h ⊢
    cases hm : timeMatch (valueAsText p).data with
    | none =>
      rw [hm] at h
      simp at h
    | some hm2 =>
      rw [hm] at h
      dsimp only at h ⊢
      by_cases h48 : 48 < hm2.1
      · rw [if_pos h48] at h
        simp at h
      · by_cases h59 : 59 < hm2.2
        · rw [if_neg h48, if_pos h59] at h
          simp at h
        · rw [if_neg h48, if_neg h59]
  · rw [if_neg ha]

/-- C6 counterexample: start time "09:00" is present and syntactically valid
but not altered; end time "08:00" is altered and valid; the day texts are
equal and the end is not later than the start, yet `check_time_window` sets
no error on the end-time parameter, because the source requires both time
parameters to be altered, not merely present. -/
theorem C6_counterexample :
    timeMatch (valueAsText ⟨some "09:00", false, false, true, none, none⟩).data = some (9, 0)
    ∧ timeMatch (valueAsText ⟨some "08:00", true, false, true, none, none⟩).data = some (8, 0)
    ∧ timeSeconds ("08:00").data ≤ timeSeconds ("09:00").data
    ∧ (check_time_window ⟨some "09:00", false, false, true, none, none⟩
        ⟨some "08:00", true, false, true, none, none⟩
        ⟨some "Wednesday", true, false, true, none, none⟩
        ⟨some "Wednesday", true, false, true, none, none⟩).2.errorMessage = none := by
  refine ⟨by decide, by decide, by decide, by decide⟩

/-- C6 (corrected): whenever both time parameters are altered and pass
`is_time_valid`, and the start-day and end-day texts are equal, the end-time
parameter gets the window-invalid error exactly when its seconds since
midnight are not strictly greater than the start's; the start-time parameter
is returned unchanged. -/
theorem C6_time_window_check (ps pe pd1 pd2 : Parameter)
    (hd : valueAsText pd1 = valueAsText pd2)
    (h1 : ps.altered = true) (h2 : pe.altered = true)
    (h1v : (is_time_valid ps).2 = true) (h2v : (is_time_valid pe).2 = true) :
    (timeSeconds (valueAsText pe).data ≤ timeSeconds (valueAsText ps).data →
      (check_time_window ps pe pd1 pd2).2
        = setErrorMessage pe ("Time window invalid!  Make sure the time window end is later than the " ++
            "time window start."))
    ∧ (timeSeconds (valueAsText ps).data < timeSeconds (valueAsText pe).data →
      (check_time_window ps pe pd1 pd2).2 = pe)
    ∧ (check_time_window ps pe pd1 pd2).1 = ps := by
  have hf1 := is_time_valid_fst_of_snd ps h1v
  have hf2 := is_time_valid_fst_of_snd pe h2v
  by_cases hle : timeSeconds (valueAsText pe).data ≤ timeSeconds (valueAsText ps).data
  · have hcw : check_time_window ps pe pd1 pd2
        = (ps, setErrorMessage pe
            ("Time window invalid!  Make sure the time window end is later than the " ++
              "time window start.")) := by
      simp [check_time_window, hd, h1, h2, h1v, h2v, hf1, hf2, hle]
    rw [hcw]
    exact ⟨fun _ => rfl, fun hlt => absurd hle (not_le.mpr hlt), rfl⟩
  · have hcw : check_time_window ps pe pd1 pd2 = (ps, pe) := by
      simp [check_time_window, hd, h1, h2, h1v, h2v, hf1, hf2, hle]
    rw [hcw]
    exact ⟨fun hh => absurd hh hle, fun _ => rfl, rfl⟩

/-- C6 witness: equal start and end times on the same day get the
window-invalid error on the end-time parameter. -/
theorem C6_time_window_check_witness :
    (check_time_window ⟨some "08:00", true, false, true, none, none⟩
        ⟨some "08:00", true, false, true, none, none⟩
        ⟨some "Monday", true, false, true, none, none⟩
        ⟨some "Monday", true, false, true, none, none⟩).2.errorMessage
      = some ("Time window invalid!  Make sure the time window end is later than the " ++
          "time window start.") := by
  rw [(C6_time_window_check _ _ _ _ rfl rfl rfl (by decide) (by decide)).1 (by decide)]
  rfl

/-- C7 (confirmed): an altered time parameter (with no pre-existing error)
ends up without an error message exactly when its value matches the
two-digit:two-digit pattern with optional surrounding whitespace and the
hours are at most 48 and the minutes at most 59; the boolean the check
returns agrees with the absence of an error. -/
theorem C7_time_format (p : Parameter) (hAlt : p.altered = true)
    (hne : p.errorMessage = none) :
    ((is_time_valid p).1.errorMessage = none ↔
      (∃ hm, timeMatch (valueAsText p).data = some hm ∧ hm.1 ≤ 48 ∧ hm.2 ≤ 59))
    ∧ ((is_time_valid p).2 = true ↔ (is_time_valid p).1.errorMessage = none) := by
  unfold is_time_valid
  rw [if_pos hAlt]
  cases hm : timeMatch (valueAsText p).data with
  | none =>
    dsimp only
    constructor
    · simp [setErrorMessage]
    · simp [setErrorMessage]
  | some hm2 =>
    dsimp only
    by_cases h48 : 48 < hm2.1
    · rw [if_pos h48]
      constructor
      · constructor
        · intro h
          exact absurd h (by simp [setErrorMessage])
        · rintro ⟨hm3, heq, ha, hb⟩
          obtain rfl := Option.some.inj heq
          omega
      · simp [setErrorMessage]
    · by_cases h59 : 59 < hm2.2
      · rw [if_neg h48, if_pos h59]
        constructor
        · constructor
          · intro h
            exact absurd h (by simp [setErrorMessage])
          · rintro ⟨hm3, heq, ha, hb⟩
            obtain rfl := Option.some.inj heq
            omega
        · simp [setErrorMessage]
      · rw [if_neg h48, if_neg h59]
        constructor
        · constructor
          · intro _
            exact ⟨hm2, rfl, by omega, by omega⟩
          · intro _
            exact hne
        · simp [hne]

/-- C7 witness: "48:00" and "08:00" are accepted, "8:00" and "25:70" are
rejected. -/
theorem C7_time_format_witness :
    (is_time_valid ⟨some "48:00", true, false, true, none, none⟩).1.errorMessage = none
    ∧ (is_time_valid ⟨some "08:00", true, false, true, none, none⟩).1.errorMessage = none
    ∧ (is_time_valid ⟨some "8:00", true, false, true, none, none⟩).1.errorMessage ≠ none
    ∧ (is_time_valid ⟨some "25:70", true, false, true, none, none⟩).1.errorMessage ≠ none := by
  refine ⟨?_, ?_, ?_, ?_⟩
  · exact ((C7_time_format _ rfl rfl).1).mpr ⟨(48, 0), by decide, by decide, by decide⟩
  · exact ((C7_time_format _ rfl rfl).1).mpr ⟨(8, 0), by decide, by decide, by decide⟩
  · intro h
    obtain ⟨hm3, heq, -, -⟩ := ((C7_time_format _ rfl rfl).1).mp h
    rw [show timeMatch (valueAsText
        (⟨some "8:00", true, false, true, none, none⟩ : Parameter)).data = none
      from by decide] at heq
    exact Option.noConfusion heq
  · intro h
    obtain ⟨hm3, heq, -, h59⟩ := ((C7_time_format _ rfl rfl).1).mp h
    rw [show timeMatch (valueAsText
        (⟨some "25:70", true, false, true, none, none⟩ : Parameter)).data = some (25, 70)
      from by decide] at heq
    obtain rfl := Option.some.inj heq
    exact absurd h59 (by decide)

/-- C8 counterexample: the seven-character string "2024115" is not an
8-digit YYYYMMDD date and not a weekday, yet `validate_day` sets no error on
it, because Python's `strptime(value, "%Y%m%d")` also accepts one-digit
month/day combinations (here 2024-11-5); so the claimed "if and only if" is
false. -/
theorem C8_counterexample :
    (validate_day ⟨some "2024115", true, false, true, none, none⟩).errorMessage = none
    ∧ ¬(("2024115" : String) ∈ days)
    ∧ isEightDigitDate "2024115" = false := by
  refine ⟨by decide, by decide, by decide⟩

/-- C8 (corrected): for an altered day parameter, `validate_day` sets the
YYYYMMDD error exactly when the value is neither one of the seven weekday
names nor accepted by `strptime(value, "%Y%m%d")` (a four-digit year
followed by a one- or two-digit month and day forming a valid calendar
date); a weekday value leaves the parameter untouched, and a
strptime-accepted value never gains an error from `validate_day`. -/
theorem C8_day_validation (p : Parameter) (hAlt : p.altered = true) :
    ((valueAsText p ∉ days ∧ strptimeYmdOk (valueAsText p).data = false) →
      (validate_day p).errorMessage
        = some "Please enter a date in YYYYMMDD format or a weekday.")
    ∧ (valueAsText p ∈ days → validate_day p = p)
    ∧ (strptimeYmdOk (valueAsText p).data = true →
        ∀ m, (validate_day p).errorMessage = some m → p.errorMessage = some m) := by
  unfold validate_day
  rw [if_pos hAlt]
  refine ⟨?_, ?_, ?_⟩
  · rintro ⟨hnd, hns⟩
    rw [if_neg hnd, if_neg (by simp [hns])]
    rfl
  · intro hd
    rw [if_pos hd]
  · intro hs m
    by_cases hd : valueAsText p ∈ days
    · rw [if_pos hd]
      exact fun h => h
    · rw [if_neg hd, if_pos hs]
      by_cases he : hasErrorB p = true
      · rw [if_pos he]
        by_cases hid : (⟨(message p).data.takeWhile (fun c => c ≠ ':')⟩ : String)
            = "ERROR 000800"
        · rw [if_pos hid]
          intro h
          simp [setWarningMessage] at h
        · rw [if_neg hid]
          exact fun h => h
      · rw [if_neg he]
        exact fun h => h

/-- C8 witness: "Jan 15" is rejected with the YYYYMMDD error, "Monday" is
left untouched, and "20240115" gains no error. -/
theorem C8_day_validation_witness :
    (validate_day ⟨some "Jan 15", true, false, true, none, none⟩).errorMessage
      = some "Please enter a date in YYYYMMDD format or a weekday."
    ∧ validate_day ⟨some "Monday", true, false, true, none, none⟩
        = ⟨some "Monday", true, false, true, none, none⟩
    ∧ (validate_day ⟨some "20240115", true, false, true, none, none⟩).errorMessage = none := by
  refine ⟨(C8_day_validation _ rfl).1 ⟨by decide, by decide⟩,
    (C8_day_validation _ rfl).2.1 (by decide), ?_⟩
  cases hcase : (validate_day ⟨some "20240115", true, false, true, none, none⟩).errorMessage with
  | none => rfl
  | some m =>
    exact Option.noConfusion ((C8_day_validation _ rfl).2.2 (by decide) m hcase)

/-- C9 (confirmed): `set_end_day` copies the start-day value into the end day
whenever the start day has a value and has not completed validation, and
after every call the end day is disabled exactly when the start-day text is
one of the seven weekday names; the start-day parameter is returned
unchanged. -/
theorem C9_end_day_default (ps pe : Parameter) :
    ((valueAsText ps ≠ "" ∧ ps.hasBeenValidated = false) →
      ((set_end_day ps pe).2).value = ps.value)
    ∧ (((set_end_day ps pe).2).enabled = false ↔ valueAsText ps ∈ days)
    ∧ (set_end_day ps pe).1 = ps := by
  refine ⟨?_, ?_, rfl⟩
  · rintro ⟨hv, hval⟩
    by_cases hdy : valueAsText ps ∈ days <;>
      simp [set_end_day, hdy, hv, hval]
  · by_cases hdy : valueAsText ps ∈ days <;>
      simp [set_end_day, hdy]

/-- C9 witness: a fresh weekday start day is mirrored into the end day and
the end day is disabled. -/
theorem C9_end_day_default_witness :
    ((set_end_day ⟨some "Monday", true, false, true, none, none⟩
        ⟨some "Friday", false, false, true, none, none⟩).2).value = some "Monday"
    ∧ ((set_end_day ⟨some "Monday", true, false, true, none, none⟩
        ⟨some "Friday", false, false, true, none, none⟩).2).enabled = false :=
  ⟨(C9_end_day_default _ _).1 ⟨by decide, rfl⟩,
   ((C9_end_day_default _ _).2.1).mpr (by decide)⟩
